import Mathlib

/-!
Verification of the joystick event-normalization and publish-timing engine
(`joystick_ros2.py`), shallowly embedded in Lean 4.

Raw event magnitudes are integers (`ℤ`); normalized values and times are
rationals (`ℚ`), modelling the exact real arithmetic the Python floats
approximate.  State mutation is explicit state passing on `JoyNode`; the
wall clock is an explicit `now` argument at each step; a publish into the
external sink is recorded as a `Bool` decision (and publish counts over a
run).  A Python `KeyError` on the value map is modelled as `none` of an
`Option` result.
-/

/-- A raw HID event as consumed by `run_one`: event type tag
(`"Key"`, `"Absolute"`, or other), raw code string, raw integer state. -/
structure RawEvent where
  ev_type : String
  code : String
  state : ℤ
deriving DecidableEq, Repr

/-- The mutable node state of `JoystickRos2`: the `Joy` message buffers
(`axes`, `buttons`), the dispatch tracker (`last_event`,
`last_publish_time`), and the three configuration parameters. -/
structure JoyNode where
  axes : List ℚ
  buttons : List ℤ
  last_event : Option RawEvent
  last_publish_time : ℚ
  deadzone : ℚ
  coalesce_interval : ℚ
  autorepeat_rate : ℚ
deriving DecidableEq, Repr

/-- Table `XINPUT_CODE_MAP` of `joystick_ros2.py` (Microsoft X-Box 360 pad). -/
def XINPUT_CODE_MAP : List (String × Nat) :=
  [("ABS_X", 0), ("ABS_Y", 1), ("ABS_Z", 2), ("ABS_RX", 3), ("ABS_RY", 4),
   ("ABS_RZ", 5), ("ABS_HAT0X", 6), ("ABS_HAT0Y", 7),
   ("BTN_SOUTH", 0), ("BTN_EAST", 1), ("BTN_WEST", 2), ("BTN_NORTH", 3),
   ("BTN_TL", 4), ("BTN_TR", 5), ("BTN_START", 6), ("BTN_SELECT", 7),
   ("BTN_MODE", 8), ("BTN_THUMBL", 9), ("BTN_THUMBR", 10)]

/-- Table `XINPUT_VALUE_MAP` of `joystick_ros2.py`. -/
def XINPUT_VALUE_MAP : List (Nat × (ℤ × ℤ)) :=
  [(0, (-32768, 32767)), (1, (32767, -32768)), (2, (0, 255)),
   (3, (-32768, 32767)), (4, (32767, -32768)), (5, (0, 255)),
   (6, (-1, 1)), (7, (-1, 1))]

/-- Table `PS4_CODE_MAP` of `joystick_ros2.py` (Sony Wireless Controller). -/
def PS4_CODE_MAP : List (String × Nat) :=
  [("ABS_X", 0), ("ABS_Y", 1), ("ABS_RX", 2), ("ABS_Z", 3), ("ABS_RZ", 4),
   ("ABS_RY", 5), ("ABS_HAT0X", 6), ("ABS_HAT0Y", 7),
   ("BTN_EAST", 0), ("BTN_C", 1), ("BTN_SOUTH", 2), ("BTN_NORTH", 3),
   ("BTN_WEST", 4), ("BTN_Z", 5), ("BTN_TL2", 6), ("BTN_TR2", 7),
   ("BTN_MODE", 8), ("BTN_SELECT", 9), ("BTN_START", 10)]

/-- Table `PS4_VALUE_MAP` of `joystick_ros2.py`. -/
def PS4_VALUE_MAP : List (Nat × (ℤ × ℤ)) :=
  [(0, (0, 255)), (1, (0, 255)), (2, (0, 255)), (3, (0, 255)),
   (4, (0, 255)), (5, (0, 255)), (6, (-1, 1)), (7, (-1, 1))]

/-- Table `F710_CODE_MAP` of `joystick_ros2.py` (Logitech Gamepad F710). -/
def F710_CODE_MAP : List (String × Nat) :=
  [("ABS_X", 0), ("ABS_Y", 1), ("ABS_Z", 2), ("ABS_RX", 3), ("ABS_RY", 4),
   ("ABS_RZ", 5), ("ABS_HAT0X", 6), ("ABS_HAT0Y", 7),
   ("BTN_SOUTH", 0), ("BTN_EAST", 1), ("BTN_NORTH", 2), ("BTN_WEST", 3),
   ("BTN_TL", 4), ("BTN_TR", 5), ("BTN_SELECT", 6), ("BTN_START", 7),
   ("BTN_MODE", 8), ("BTN_THUMBL", 9), ("BTN_THUMBR", 10)]

/-- Table `F710_VALUE_MAP` of `joystick_ros2.py`. -/
def F710_VALUE_MAP : List (Nat × (ℤ × ℤ)) :=
  [(0, (-32768, 32767)), (1, (-32768, 32767)), (2, (0, 255)),
   (3, (-32768, 32767)), (4, (-32768, 32767)), (5, (0, 255)),
   (6, (-1, 1)), (7, (-1, 1))]

/-- Table `XONE_CODE_MAP` of `joystick_ros2.py` (Microsoft X-Box One pad). -/
def XONE_CODE_MAP : List (String × Nat) :=
  [("ABS_X", 0), ("ABS_Y", 1), ("ABS_Z", 2), ("ABS_RX", 3), ("ABS_RY", 4),
   ("ABS_RZ", 5), ("ABS_HAT0X", 6), ("ABS_HAT0Y", 7),
   ("BTN_SOUTH", 0), ("BTN_EAST", 1), ("BTN_NORTH", 2), ("BTN_WEST", 3),
   ("BTN_TL", 4), ("BTN_TR", 5), ("BTN_SELECT", 6), ("BTN_START", 7),
   ("BTN_MODE", 8), ("BTN_THUMBL", 9), ("BTN_THUMBR", 10)]

/-- Table `XONE_VALUE_MAP` of `joystick_ros2.py`. -/
def XONE_VALUE_MAP : List (Nat × (ℤ × ℤ)) :=
  [(0, (-32768, 32767)), (1, (-32768, 32767)), (2, (0, 1023)),
   (3, (-32768, 32767)), (4, (-32768, -32767)), (5, (0, 1023)),
   (6, (-1, 1)), (7, (-1, 1))]

/-- Table `XONE_S_CODE_MAP` of `joystick_ros2.py` (alias of `XONE_CODE_MAP`). -/
def XONE_S_CODE_MAP : List (String × Nat) := XONE_CODE_MAP

/-- Table `XONE_S_VALUE_MAP` of `joystick_ros2.py`. -/
def XONE_S_VALUE_MAP : List (Nat × (ℤ × ℤ)) :=
  [(0, (-32768, 32767)), (1, (-32768, 32767)), (2, (-1023, 1023)),
   (3, (-32768, 32767)), (4, (-32768, 32767)), (5, (-1023, 1023)),
   (6, (-1, 1)), (7, (-1, 1))]

/-- Table `JOYSTICK_CODE_VALUE_MAP` of `joystick_ros2.py`: model name →
(code map, value map). -/
def JOYSTICK_CODE_VALUE_MAP :
    List (String × (List (String × Nat) × List (Nat × (ℤ × ℤ)))) :=
  [("Microsoft X-Box 360 pad", (XINPUT_CODE_MAP, XINPUT_VALUE_MAP)),
   ("Sony Computer Entertainment Wireless Controller", (PS4_CODE_MAP, PS4_VALUE_MAP)),
   ("Logitech Gamepad F710", (F710_CODE_MAP, F710_VALUE_MAP)),
   ("Microsoft X-Box One pad", (XONE_CODE_MAP, XONE_VALUE_MAP)),
   ("Microsoft X-Box One S pad", (XONE_S_CODE_MAP, XONE_S_VALUE_MAP))]

/-- The linear part of `JoystickRos2.normalize_key_value`:
`normalized = ((key_value - key_value_min) / (key_value_max - key_value_min) * (-2)) + 1`. -/
def linear_normalize (key_value_min key_value_max key_value : ℚ) : ℚ :=
  ((key_value - key_value_min) / (key_value_max - key_value_min)) * (-2) + 1

/-- Function `JoystickRos2.normalize_key_value`: the linear normalization followed by
the deadzone cutoff (`if abs(normalized) > deadzone: return normalized
else: return 0.0`). -/
def normalize_key_value (deadzone key_value_min key_value_max key_value : ℚ) : ℚ :=
  let normalized := linear_normalize key_value_min key_value_max key_value
  if deadzone < |normalized| then normalized else 0

/-- Method `JoystickRos2.publish_joy`, restricted to its effect on the node state:
it sends the current message to the sink and records
`last_publish_time = time.time()`.  The header-stamp arithmetic is modelled
separately by `stamp_sec` and `stamp_nanosec`. -/
def publish_joy (s : JoyNode) (now : ℚ) : JoyNode :=
  { s with last_publish_time := now }

/-- Python `int(q)`: truncation toward zero. -/
def pyInt (q : ℚ) : ℤ :=
  if 0 ≤ q then ⌊q⌋ else ⌈q⌉

/-- The `header.stamp.sec` computation of `publish_joy`:
`int(current_time[1])` where `current_time[1]` is the whole part of
`time.time()`. -/
def stamp_sec (whole : ℚ) : ℤ := pyInt whole

/-- The `header.stamp.nanosec` computation of `publish_joy`:
`int(current_time[0] * 1000000000) & 0xffffffff` where `current_time[0]`
is the fractional part of `time.time()`.  The bitwise and with
`0xffffffff` on a Python integer is reduction modulo `2^32`. -/
def stamp_nanosec (frac : ℚ) : ℤ :=
  (pyInt (frac * 1000000000)).emod (2 ^ 32)

/-- The body of the event loop of `JoystickRos2.run_one` for one event,
given the code map of the active profile and value map and the current wall
clock `now`.  Returns `none` for the uncaught `KeyError` raised when an
channel index of an `Absolute` event is missing from the value map; otherwise
`some (s', published)`. -/
def handle_event (code_map : List (String × Nat))
    (value_map : List (Nat × (ℤ × ℤ)))
    (s : JoyNode) (event : RawEvent) (now : ℚ) : Option (JoyNode × Bool) :=
  match code_map.lookup event.code with
  | none => some (s, false)
  | some key_code =>
    if event.ev_type = "Key" then
      let s1 := { s with buttons := s.buttons.set key_code event.state }
      let s2 := publish_joy s1 now
      some ({ s2 with last_event := some event }, true)
    else if event.ev_type = "Absolute" then
      match value_map.lookup key_code with
      | none => none
      | some value_range =>
        let v := normalize_key_value s.deadzone (value_range.1 : ℚ)
          (value_range.2 : ℚ) (event.state : ℚ)
        let s1 := { s with axes := s.axes.set key_code v }
        let doPub : Bool :=
          match s.last_event with
          | none => true
          | some le =>
            decide (le.code ≠ event.code) ||
              decide (s.coalesce_interval < now - s.last_publish_time)
        let s2 := if doPub then publish_joy s1 now else s1
        some ({ s2 with last_event := some event }, doPub)
    else
      some (s, false)

/-- Draining a list of timed events through `handle_event`, counting the
publishes issued.  `none` propagates a `KeyError`. -/
def handle_events (code_map : List (String × Nat))
    (value_map : List (Nat × (ℤ × ℤ)))
    (s : JoyNode) : List (RawEvent × ℚ) → Option (JoyNode × Nat)
  | [] => some (s, 0)
  | (e, t) :: rest =>
    match handle_event code_map value_map s e t with
    | none => none
    | some (s1, p) =>
      match handle_events code_map value_map s1 rest with
      | none => none
      | some (s2, n) => some (s2, (if p then 1 else 0) + n)

/-- The autorepeat check at the end of `JoystickRos2.run_one`:
`if autorepeat_rate > 0.0 and time.time() - last_publish_time > 1/autorepeat_rate:
publish_joy()`.  Returns the new state and whether a publish was issued. -/
def autorepeat_step (s : JoyNode) (now : ℚ) : JoyNode × Bool :=
  if 0 < s.autorepeat_rate ∧ 1 / s.autorepeat_rate < now - s.last_publish_time then
    (publish_joy s now, true)
  else
    (s, false)

/-- A run of event-free dispatch ticks at the given wall-clock times:
each tick drains no events and performs only the autorepeat check.
Returns the final state and the total number of publishes. -/
def autorepeat_run (s : JoyNode) : List ℚ → JoyNode × Nat
  | [] => (s, 0)
  | t :: ts =>
    let r1 := autorepeat_step s t
    let r2 := autorepeat_run r1.1 ts
    (r2.1, (if r1.2 then 1 else 0) + r2.2)

/-- The node state built by `JoystickRos2.__init__`: all-zero `Joy` buffers
(8 axes, 11 buttons), `last_event = None`, `last_publish_time = 0`. -/
def initial_node (deadzone coalesce_interval autorepeat_rate : ℚ) : JoyNode :=
  { axes := [0, 0, 0, 0, 0, 0, 0, 0],
    buttons := [0, 0, 0, 0, 0, 0, 0, 0, 0, 0, 0],
    last_event := none,
    last_publish_time := 0,
    deadzone := deadzone,
    coalesce_interval := coalesce_interval,
    autorepeat_rate := autorepeat_rate }

/-- An event code is an axis code when it begins with the evdev marker
`ABS_` (such codes arrive with `ev_type = "Absolute"`). -/
def isAxisCode (c : String) : Bool := c.data.take 4 = "ABS_".data

/-- An event code is a button code when it begins with the evdev marker
`BTN_` (such codes arrive with `ev_type = "Key"`). -/
def isButtonCode (c : String) : Bool := c.data.take 4 = "BTN_".data

/-- Helper: under the hypotheses of C2, the linear interpolation parameter
`t = (v - mn) / (mx - mn)` lies in `[0, 1]`. -/
theorem interp_param_mem_unitInterval (mn mx v : ℚ) (hne : mn ≠ mx)
    (hb : (mn ≤ v ∧ v ≤ mx) ∨ (mx ≤ v ∧ v ≤ mn)) :
    0 ≤ (v - mn) / (mx - mn) ∧ (v - mn) / (mx - mn) ≤ 1 := by
  rcases hb with ⟨h1, h2⟩ | ⟨h1, h2⟩
  · have hlt : mn < mx := lt_of_le_of_ne (le_trans h1 h2) hne
    have hpos : 0 < mx - mn := by linarith
    constructor
    · exact div_nonneg (by linarith) (le_of_lt hpos)
    · rw [div_le_one hpos]; linarith
  · have hlt : mx < mn := lt_of_le_of_ne (le_trans h1 h2) (Ne.symm hne)
    have hneg : mx - mn < 0 := by linarith
    constructor
    · exact div_nonneg_of_nonpos (by linarith) (le_of_lt hneg)
    · rw [div_le_iff_of_neg hneg]; linarith

/-- Claim C2: for `rawMin ≠ rawMax` and `v` between them in either orientation,
the normalizer computes `normalized = 1 - 2 * (v - rawMin)/(rawMax - rawMin)`;
this value lies in `[-1, 1]`, equals `+1` at `v = rawMin` and `-1` at
`v = rawMax`; the full normalizer output (after the deadzone cutoff) also
lies in `[-1, 1]`, and for any deadzone below `1` the endpoint outputs are
exactly `+1` and `-1`. -/
theorem normalize_linear_exact (dz mn mx v : ℚ) (hne : mn ≠ mx)
    (hb : (mn ≤ v ∧ v ≤ mx) ∨ (mx ≤ v ∧ v ≤ mn)) :
    linear_normalize mn mx v = 1 - 2 * ((v - mn) / (mx - mn)) ∧
    (-1 ≤ linear_normalize mn mx v ∧ linear_normalize mn mx v ≤ 1) ∧
    linear_normalize mn mx mn = 1 ∧
    linear_normalize mn mx mx = -1 ∧
    (-1 ≤ normalize_key_value dz mn mx v ∧ normalize_key_value dz mn mx v ≤ 1) ∧
    (dz < 1 → normalize_key_value dz mn mx mn = 1 ∧ normalize_key_value dz mn mx mx = -1) := by
  have hd : mx - mn ≠ 0 := sub_ne_zero.mpr (Ne.symm hne)
  obtain ⟨ht0, ht1⟩ := interp_param_mem_unitInterval mn mx v hne hb
  have hform : linear_normalize mn mx v = 1 - 2 * ((v - mn) / (mx - mn)) := by
    unfold linear_normalize; ring
  have hlo : -1 ≤ linear_normalize mn mx v := by rw [hform]; linarith
  have hhi : linear_normalize mn mx v ≤ 1 := by rw [hform]; linarith
  have hmn : linear_normalize mn mx mn = 1 := by
    unfold linear_normalize
    rw [sub_self, zero_div]; ring
  have hmx : linear_normalize mn mx mx = -1 := by
    unfold linear_normalize
    rw [div_self hd]; ring
  refine ⟨hform, ⟨hlo, hhi⟩, hmn, hmx, ?_, ?_⟩
  · simp only [normalize_key_value]
    split
    · exact ⟨hlo, hhi⟩
    · norm_num
  · intro hdz
    constructor
    · simp only [normalize_key_value, hmn]
      simp [hdz]
    · simp only [normalize_key_value, hmx]
      simp [hdz]

/-- Claim C3: the deadzone is a hard cutoff: if the absolute value of the linearly
normalized result is at most the deadzone the normalizer returns exactly
`0.0`, otherwise it returns the normalized value unchanged. -/
theorem normalize_deadzone_hard_cutoff (dz mn mx v : ℚ) :
    (|linear_normalize mn mx v| ≤ dz → normalize_key_value dz mn mx v = 0) ∧
    (dz < |linear_normalize mn mx v| →
      normalize_key_value dz mn mx v = linear_normalize mn mx v) := by
  constructor
  · intro h
    unfold normalize_key_value
    rw [if_neg (not_lt.mpr h)]
  · intro h
    unfold normalize_key_value
    rw [if_pos h]

/-- Helper: `handle_event` on a mapped `Key` event sets the button slot to
the raw state, publishes, and records the event in the tracker. -/
theorem handle_event_key (cm : List (String × Nat))
    (vm : List (Nat × (ℤ × ℤ))) (s : JoyNode) (e : RawEvent) (now : ℚ)
    (k : Nat) (hty : e.ev_type = "Key") (hc : cm.lookup e.code = some k) :
    handle_event cm vm s e now =
      some ({ s with buttons := s.buttons.set k e.state,
                     last_publish_time := now,
                     last_event := some e }, true) := by
  unfold handle_event
  simp only [hc]
  rw [if_pos hty]
  rfl

/-- Helper: `handle_event` on a mapped `Absolute` event with a value-map
entry writes the normalized value into the axis slot, decides the publish
from the tracker and the coalesce interval, and records the event. -/
theorem handle_event_absolute (cm : List (String × Nat))
    (vm : List (Nat × (ℤ × ℤ))) (s : JoyNode) (e : RawEvent) (now : ℚ)
    (k : Nat) (r : ℤ × ℤ) (hty : e.ev_type = "Absolute")
    (hc : cm.lookup e.code = some k) (hv : vm.lookup k = some r) :
    handle_event cm vm s e now =
      (let v := normalize_key_value s.deadzone (r.1 : ℚ) (r.2 : ℚ) (e.state : ℚ)
       let s1 := { s with axes := s.axes.set k v }
       let doPub : Bool :=
         match s.last_event with
         | none => true
         | some le =>
           decide (le.code ≠ e.code) ||
             decide (s.coalesce_interval < now - s.last_publish_time)
       let s2 := if doPub then publish_joy s1 now else s1
       some ({ s2 with last_event := some e }, doPub)) := by
  have hne : e.ev_type ≠ "Key" := by rw [hty]; decide
  unfold handle_event
  simp only [hc]
  rw [if_neg hne, if_pos hty]
  simp only [hv]


/-- Helper: `handle_event` on a mapped `Absolute` event when the tracker
has no prior event: the publish is unconditional. -/
theorem handle_event_absolute_fresh (cm : List (String × Nat))
    (vm : List (Nat × (ℤ × ℤ))) (s : JoyNode) (e : RawEvent) (now : ℚ)
    (k : Nat) (r : ℤ × ℤ) (hty : e.ev_type = "Absolute")
    (hc : cm.lookup e.code = some k) (hv : vm.lookup k = some r)
    (hle : s.last_event = none) :
    handle_event cm vm s e now =
      (let v := normalize_key_value s.deadzone (r.1 : ℚ) (r.2 : ℚ) (e.state : ℚ)
       some ({ s with axes := s.axes.set k v,
                      last_publish_time := now,
                      last_event := some e }, true)) := by
  rw [handle_event_absolute cm vm s e now k r hty hc hv]
  simp only [hle, publish_joy, if_true]

/-- Helper: `handle_event` on a mapped `Absolute` event when the tracker
holds a prior event `le`: the publish decision compares codes and the
elapsed time against the coalesce interval. -/
theorem handle_event_absolute_prior (cm : List (String × Nat))
    (vm : List (Nat × (ℤ × ℤ))) (s : JoyNode) (e le : RawEvent) (now : ℚ)
    (k : Nat) (r : ℤ × ℤ) (hty : e.ev_type = "Absolute")
    (hc : cm.lookup e.code = some k) (hv : vm.lookup k = some r)
    (hle : s.last_event = some le) :
    handle_event cm vm s e now =
      (let v := normalize_key_value s.deadzone (r.1 : ℚ) (r.2 : ℚ) (e.state : ℚ)
       let doPub : Bool :=
         decide (le.code ≠ e.code) ||
           decide (s.coalesce_interval < now - s.last_publish_time)
       let s1 := { s with axes := s.axes.set k v }
       some ({ (if doPub then publish_joy s1 now else s1) with
                last_event := some e }, doPub)) := by
  rw [handle_event_absolute cm vm s e now k r hty hc hv]
  simp only [hle]

/-- Claim C1: handling a mapped `Absolute` event publishes if and only if the
tracker has no prior event, or the code of the prior event differs, or the
elapsed time since the last publish exceeds the coalesce interval; in
particular, from a fresh tracker, two same-code axis events within the
coalesce interval yield exactly one publish, and the same two events
separated by more than the coalesce interval yield two publishes. -/
theorem axis_publish_coalescing :
    (∀ cm vm s e now k s' p, e.ev_type = "Absolute" →
        cm.lookup e.code = some k →
        handle_event cm vm s e now = some (s', p) →
        (p = true ↔ s.last_event = none ∨
          (∃ le, s.last_event = some le ∧ le.code ≠ e.code) ∨
          s.coalesce_interval < now - s.last_publish_time)) ∧
    (∀ cm vm s e1 e2 t1 t2 k r s' n,
        s.last_event = none →
        e1.ev_type = "Absolute" → e2.ev_type = "Absolute" →
        e1.code = e2.code →
        cm.lookup e1.code = some k → vm.lookup k = some r →
        handle_events cm vm s [(e1, t1), (e2, t2)] = some (s', n) →
        ((t2 - t1 ≤ s.coalesce_interval → n = 1) ∧
         (s.coalesce_interval < t2 - t1 → n = 2))) := by
  constructor
  · intro cm vm s e now k s' p hty hc hh
    rcases hv : vm.lookup k with _ | r
    · have hne : e.ev_type ≠ "Key" := by rw [hty]; decide
      unfold handle_event at hh
      rw [hc] at hh
      simp only [if_neg hne, if_pos hty, hv] at hh
      exact absurd hh (by simp)
    · cases hle : s.last_event with
      | none =>
        rw [handle_event_absolute_fresh cm vm s e now k r hty hc hv hle] at hh
        simp only [Option.some.injEq, Prod.mk.injEq] at hh
        simp [← hh.2, hle]
      | some le =>
        rw [handle_event_absolute_prior cm vm s e le now k r hty hc hv hle] at hh
        simp only [Option.some.injEq, Prod.mk.injEq] at hh
        rw [← hh.2]
        simp only [Bool.or_eq_true, decide_eq_true_eq, hle]
        constructor
        · rintro (h | h)
          · exact Or.inr (Or.inl ⟨le, rfl, h⟩)
          · exact Or.inr (Or.inr h)
        · rintro (h | ⟨le', hle', h⟩ | h)
          · exact absurd h (by simp)
          · injection hle' with hle'
            exact Or.inl (hle' ▸ h)
          · exact Or.inr h
  · intro cm vm s e1 e2 t1 t2 k r s' n hle hty1 hty2 hcode hc1 hv hh
    have hc2 : cm.lookup e2.code = some k := hcode ▸ hc1
    have hd2 : (decide (e1.code ≠ e2.code) : Bool) = false := by
      simp [hcode]
    simp only [handle_events] at hh
    rw [handle_event_absolute_fresh cm vm s e1 t1 k r hty1 hc1 hv hle] at hh
    simp only [] at hh
    rw [handle_event_absolute_prior cm vm
      { s with
        axes := s.axes.set k
          (normalize_key_value s.deadzone (r.1 : ℚ) (r.2 : ℚ) (e1.state : ℚ)),
        last_publish_time := t1,
        last_event := some e1 }
      e2 e1 t2 k r hty2 hc2 hv rfl] at hh
    simp only [hd2, Bool.false_or] at hh
    by_cases hgap : s.coalesce_interval < t2 - t1
    · have hcond : decide (s.coalesce_interval < t2 - t1) = true := by
        simpa using hgap
      rw [hcond] at hh
      simp at hh
      refine ⟨fun hle2 => absurd hgap (not_lt.mpr hle2), fun _ => ?_⟩
      omega
    · have hcond : decide (s.coalesce_interval < t2 - t1) = false := by
        simpa using hgap
      rw [hcond] at hh
      simp at hh
      refine ⟨fun _ => ?_, fun hlt => absurd hlt hgap⟩
      omega

/-- Witness for C1: a concrete first `ABS_HAT0X` event on the X-Box 360
profile from the fresh initial state publishes, and the publish decision
matches the coalescing condition. -/
theorem axis_publish_coalescing_witness :
    ∃ s' p,
      handle_event XINPUT_CODE_MAP XINPUT_VALUE_MAP (initial_node 0 1 0)
        (RawEvent.mk "Absolute" "ABS_HAT0X" 1) 5 = some (s', p) ∧
      (p = true ↔ (initial_node 0 1 0).last_event = none ∨
        (∃ le, (initial_node 0 1 0).last_event = some le ∧
          le.code ≠ (RawEvent.mk "Absolute" "ABS_HAT0X" 1).code) ∨
        (initial_node 0 1 0).coalesce_interval <
          5 - (initial_node 0 1 0).last_publish_time) := by
  have hc : XINPUT_CODE_MAP.lookup "ABS_HAT0X" = some 6 := by decide
  have hv : XINPUT_VALUE_MAP.lookup 6 = some (-1, 1) := by decide
  have hh := handle_event_absolute_fresh XINPUT_CODE_MAP XINPUT_VALUE_MAP
    (initial_node 0 1 0) (RawEvent.mk "Absolute" "ABS_HAT0X" 1) 5 6 (-1, 1)
    rfl hc hv rfl
  exact ⟨_, _, hh,
    axis_publish_coalescing.1 XINPUT_CODE_MAP XINPUT_VALUE_MAP
      (initial_node 0 1 0) (RawEvent.mk "Absolute" "ABS_HAT0X" 1) 5 6 _ _
      rfl hc hh⟩

/-- Witness for C2: the X-Box 360 `ABS_X` range with `v = 0` strictly
between the endpoints. -/
theorem normalize_linear_exact_witness :
    ((-32768 : ℚ) ≠ 32767) ∧
    (linear_normalize (-32768) 32767 0 =
        1 - 2 * ((0 - (-32768)) / (32767 - (-32768))) ∧
      (-1 ≤ linear_normalize (-32768) 32767 0 ∧
        linear_normalize (-32768) 32767 0 ≤ 1) ∧
      linear_normalize (-32768) 32767 (-32768) = 1 ∧
      linear_normalize (-32768) 32767 32767 = -1 ∧
      (-1 ≤ normalize_key_value (1/20) (-32768) 32767 0 ∧
        normalize_key_value (1/20) (-32768) 32767 0 ≤ 1) ∧
      ((1/20 : ℚ) < 1 →
        normalize_key_value (1/20) (-32768) 32767 (-32768) = 1 ∧
        normalize_key_value (1/20) (-32768) 32767 32767 = -1)) :=
  ⟨by norm_num,
   normalize_linear_exact (1/20) (-32768) 32767 0 (by norm_num)
     (Or.inl ⟨by norm_num, by norm_num⟩)⟩

/-- Witness for C3: with deadzone `1/20`, the mid-range raw value `127` on
the PS4 `0..255` range normalizes linearly to `1/255`, which is inside the
deadzone, so the normalizer returns `0`. -/
theorem normalize_deadzone_hard_cutoff_witness :
    |linear_normalize 0 255 127| ≤ 1/20 ∧
    normalize_key_value (1/20) 0 255 127 = 0 :=
  ⟨by norm_num [linear_normalize, abs_le],
   (normalize_deadzone_hard_cutoff (1/20) 0 255 127).1
     (by norm_num [linear_normalize, abs_le])⟩

/-- Claim C4: every mapped `Key` event publishes, setting the button slot and
recording the event; in particular two consecutive mapped button events
(same or different code, any timing) produce exactly two publishes. -/
theorem key_always_publishes :
    (∀ cm vm s e now k, e.ev_type = "Key" → cm.lookup e.code = some k →
        handle_event cm vm s e now =
          some ({ s with buttons := s.buttons.set k e.state,
                         last_publish_time := now,
                         last_event := some e }, true)) ∧
    (∀ cm vm s e1 e2 t1 t2 k1 k2 s' n,
        e1.ev_type = "Key" → e2.ev_type = "Key" →
        cm.lookup e1.code = some k1 → cm.lookup e2.code = some k2 →
        handle_events cm vm s [(e1, t1), (e2, t2)] = some (s', n) →
        n = 2) := by
  constructor
  · intro cm vm s e now k hty hc
    exact handle_event_key cm vm s e now k hty hc
  · intro cm vm s e1 e2 t1 t2 k1 k2 s' n hty1 hty2 hc1 hc2 hh
    simp only [handle_events] at hh
    rw [handle_event_key cm vm s e1 t1 k1 hty1 hc1] at hh
    simp only [] at hh
    rw [handle_event_key cm vm _ e2 t2 k2 hty2 hc2] at hh
    simp at hh
    omega

/-- Witness for C4: two concrete `BTN_SOUTH` presses on the X-Box 360
profile both publish. -/
theorem key_always_publishes_witness :
    (RawEvent.mk "Key" "BTN_SOUTH" 1).ev_type = "Key" ∧
    XINPUT_CODE_MAP.lookup "BTN_SOUTH" = some 0 ∧
    handle_event XINPUT_CODE_MAP XINPUT_VALUE_MAP (initial_node 0 1 0)
        (RawEvent.mk "Key" "BTN_SOUTH" 1) 5 =
      some ({ (initial_node 0 1 0) with
                buttons := (initial_node 0 1 0).buttons.set 0 1,
                last_publish_time := 5,
                last_event := some (RawEvent.mk "Key" "BTN_SOUTH" 1) }, true) :=
  ⟨rfl, by decide,
   key_always_publishes.1 XINPUT_CODE_MAP XINPUT_VALUE_MAP (initial_node 0 1 0)
     (RawEvent.mk "Key" "BTN_SOUTH" 1) 5 0 rfl (by decide)⟩

/-- Claim C7: an event whose code is absent from the code map of the active profile
leaves the whole node state (buffers and tracker) unchanged and emits no
publish. -/
theorem unmapped_code_ignored (cm : List (String × Nat))
    (vm : List (Nat × (ℤ × ℤ))) (s : JoyNode) (e : RawEvent) (now : ℚ)
    (h : cm.lookup e.code = none) :
    handle_event cm vm s e now = some (s, false) := by
  unfold handle_event
  rw [h]

/-- Witness for C7: a D-pad style code unknown to the X-Box 360 profile is
dropped without any effect. -/
theorem unmapped_code_ignored_witness :
    XINPUT_CODE_MAP.lookup "ABS_MISC" = none ∧
    handle_event XINPUT_CODE_MAP XINPUT_VALUE_MAP (initial_node 0 1 0)
        (RawEvent.mk "Absolute" "ABS_MISC" 1) 5 =
      some (initial_node 0 1 0, false) :=
  ⟨by decide,
   unmapped_code_ignored XINPUT_CODE_MAP XINPUT_VALUE_MAP (initial_node 0 1 0)
     (RawEvent.mk "Absolute" "ABS_MISC" 1) 5 (by decide)⟩

/-- Counterexample for C5: `run_one` stores the raw `Key` state without
clamping: a `BTN_SOUTH` event with raw state `2` stores `2` in button
slot `0`, which is neither `0` nor `1`. -/
theorem button_state_unclamped_cex :
    ∃ s', handle_event XINPUT_CODE_MAP XINPUT_VALUE_MAP (initial_node 0 1 0)
        (RawEvent.mk "Key" "BTN_SOUTH" 2) 5 = some (s', true) ∧
      s'.buttons[0]? = some 2 ∧ ¬((2 : ℤ) = 0 ∨ (2 : ℤ) = 1) := by
  refine ⟨_, handle_event_key XINPUT_CODE_MAP XINPUT_VALUE_MAP
    (initial_node 0 1 0) (RawEvent.mk "Key" "BTN_SOUTH" 2) 5 0 rfl (by decide),
    by decide, by decide⟩

/-- Claim C5 as amended: a mapped `Key` event stores the raw event state into the
button slot unchanged (no clamping); the stored value is `0` or `1`
exactly when the raw state is. -/
theorem button_state_stored_unchanged (cm : List (String × Nat))
    (vm : List (Nat × (ℤ × ℤ))) (s : JoyNode) (e : RawEvent) (now : ℚ)
    (k : Nat) (hty : e.ev_type = "Key") (hc : cm.lookup e.code = some k) :
    ∃ s', handle_event cm vm s e now = some (s', true) ∧
      s'.buttons = s.buttons.set k e.state ∧
      (k < s.buttons.length → s'.buttons[k]? = some e.state) ∧
      (k < s.buttons.length →
        ∀ b, s'.buttons[k]? = some b → ((b = 0 ∨ b = 1) ↔ (e.state = 0 ∨ e.state = 1))) := by
  refine ⟨_, handle_event_key cm vm s e now k hty hc, rfl, ?_, ?_⟩
  · intro hk
    exact List.getElem?_set_eq_of_lt e.state hk
  · intro hk b hb
    have hb' : (s.buttons.set k e.state)[k]? = some e.state :=
      List.getElem?_set_eq_of_lt e.state hk
    rw [hb'] at hb
    injection hb with hb
    rw [hb]

/-- Witness for the amended C5: a `BTN_SOUTH` press with raw state `1`
stores exactly `1`. -/
theorem button_state_stored_unchanged_witness :
    ∃ s', handle_event XINPUT_CODE_MAP XINPUT_VALUE_MAP (initial_node 0 1 0)
        (RawEvent.mk "Key" "BTN_SOUTH" 1) 7 = some (s', true) ∧
      s'.buttons = (initial_node 0 1 0).buttons.set 0 1 ∧
      (0 < (initial_node 0 1 0).buttons.length → s'.buttons[0]? = some 1) ∧
      (0 < (initial_node 0 1 0).buttons.length →
        ∀ b, s'.buttons[0]? = some b → ((b = 0 ∨ b = 1) ↔ ((1:ℤ) = 0 ∨ (1:ℤ) = 1))) :=
  button_state_stored_unchanged XINPUT_CODE_MAP XINPUT_VALUE_MAP
    (initial_node 0 1 0) (RawEvent.mk "Key" "BTN_SOUTH" 1) 7 0 rfl (by decide)

/-- Claim C6: the post-drain autorepeat check publishes the unchanged buffers if
and only if the autorepeat rate is positive and the elapsed time since the
last publish exceeds `1/autorepeat_rate`; with a zero rate an event-free
run of dispatch ticks never publishes and never changes the state. -/
theorem autorepeat_publish_iff :
    (∀ s now, (autorepeat_step s now).1.axes = s.axes ∧
      (autorepeat_step s now).1.buttons = s.buttons ∧
      ((autorepeat_step s now).2 = true ↔
        (0 < s.autorepeat_rate ∧
          1 / s.autorepeat_rate < now - s.last_publish_time))) ∧
    (∀ s ts, s.autorepeat_rate = 0 → autorepeat_run s ts = (s, 0)) := by
  constructor
  · intro s now
    unfold autorepeat_step
    split
    · next hcond => simpa [publish_joy] using hcond
    · next hcond => simpa using hcond
  · intro s ts h
    induction ts with
    | nil => rfl
    | cons t ts ih =>
      have hstep : autorepeat_step s t = (s, false) := by
        unfold autorepeat_step
        rw [if_neg]
        rintro ⟨h1, -⟩
        rw [h] at h1
        exact lt_irrefl 0 h1
      simp only [autorepeat_run, hstep, ih]
      rfl

/-- Witness for C6: with rate `1` and last publish at `0`, a tick at time
`3` publishes (`1/1 < 3`), and with rate `0` a three-tick run publishes
nothing. -/
theorem autorepeat_publish_iff_witness :
    ((autorepeat_step (initial_node 0 1 1) 3).2 = true ↔
      (0 < (initial_node 0 1 1).autorepeat_rate ∧
        1 / (initial_node 0 1 1).autorepeat_rate <
          3 - (initial_node 0 1 1).last_publish_time)) ∧
    ((initial_node 0 1 0).autorepeat_rate = 0 ∧
      autorepeat_run (initial_node 0 1 0) [1, 2, 3] = (initial_node 0 1 0, 0)) :=
  ⟨(autorepeat_publish_iff.1 (initial_node 0 1 1) 3).2.2,
   ⟨rfl, autorepeat_publish_iff.2 (initial_node 0 1 0) [1, 2, 3] rfl⟩⟩

/-- Claim C9: for a fractional wall-clock part in `[0, 1)`, the published
`header.stamp.nanosec` lies in `[0, 1e9)` and the 32-bit mask leaves the
truncated value unchanged. -/
theorem stamp_nanosec_in_range (frac : ℚ) (h0 : 0 ≤ frac) (h1 : frac < 1) :
    0 ≤ stamp_nanosec frac ∧ stamp_nanosec frac < 1000000000 ∧
    stamp_nanosec frac = pyInt (frac * 1000000000) := by
  have hq0 : (0 : ℚ) ≤ frac * 1000000000 := by positivity
  have hpy : pyInt (frac * 1000000000) = ⌊frac * 1000000000⌋ := by
    unfold pyInt
    rw [if_pos hq0]
  have hf0 : 0 ≤ ⌊frac * 1000000000⌋ := Int.floor_nonneg.mpr hq0
  have hfl : ⌊frac * 1000000000⌋ < 1000000000 := by
    apply Int.floor_lt.mpr
    push_cast
    nlinarith
  have hlt32 : ⌊frac * 1000000000⌋ < 2 ^ 32 := lt_trans hfl (by norm_num)
  have hmask : stamp_nanosec frac = ⌊frac * 1000000000⌋ := by
    unfold stamp_nanosec
    rw [hpy]
    exact Int.emod_eq_of_lt hf0 hlt32
  exact ⟨hmask ▸ hf0, hmask ▸ hfl, hmask.trans hpy.symm⟩

/-- Witness for C9: the fractional part `1/2` stamps `500000000`
nanoseconds. -/
theorem stamp_nanosec_in_range_witness :
    (0 : ℚ) ≤ 1/2 ∧ (1/2 : ℚ) < 1 ∧
    (0 ≤ stamp_nanosec (1/2) ∧ stamp_nanosec (1/2) < 1000000000 ∧
      stamp_nanosec (1/2) = pyInt (1/2 * 1000000000)) :=
  ⟨by norm_num, by norm_num,
   stamp_nanosec_in_range (1/2) (by norm_num) (by norm_num)⟩

/-- Claim C10: the tracker starts at the epoch (`last_publish_time = 0`) with no
recorded event, so on the first dispatch tick at wall-clock `now` with a
positive autorepeat rate whose period `1/rate` is below `now`, the
autorepeat check fires and publishes the all-zero initial state; and any
first mapped axis event publishes unconditionally because the tracker is
fresh. -/
theorem initial_epoch_forces_publish (dz ci rate now : ℚ)
    (hr : 0 < rate) (hn : 1 / rate < now) :
    (initial_node dz ci rate).last_publish_time = 0 ∧
    (initial_node dz ci rate).last_event = none ∧
    autorepeat_step (initial_node dz ci rate) now =
      (publish_joy (initial_node dz ci rate) now, true) ∧
    (initial_node dz ci rate).axes = [0, 0, 0, 0, 0, 0, 0, 0] ∧
    (initial_node dz ci rate).buttons = [0, 0, 0, 0, 0, 0, 0, 0, 0, 0, 0] ∧
    (∀ cm vm e k r, e.ev_type = "Absolute" →
      cm.lookup e.code = some k →
      vm.lookup k = some r →
      ∃ s', handle_event cm vm (initial_node dz ci rate) e now =
        some (s', true)) := by
  refine ⟨rfl, rfl, ?_, rfl, rfl, ?_⟩
  · unfold autorepeat_step
    rw [if_pos]
    constructor
    · exact hr
    · simpa [initial_node] using hn
  · intro cm vm e k r hty hc hv
    exact ⟨_, handle_event_absolute_fresh cm vm (initial_node dz ci rate)
      e now k r hty hc hv rfl⟩

/-- Witness for C10: deadzone `0`, coalesce interval `1`, rate `1`, first
tick at `now = 2 > 1/1`. -/
theorem initial_epoch_forces_publish_witness :
    (0 : ℚ) < 1 ∧ (1 : ℚ) / 1 < 2 ∧
    (initial_node 0 1 1).last_publish_time = 0 ∧
    autorepeat_step (initial_node 0 1 1) 2 =
      (publish_joy (initial_node 0 1 1) 2, true) :=
  ⟨by norm_num, by norm_num,
   (initial_epoch_forces_publish 0 1 1 2 (by norm_num) (by norm_num)).1,
   (initial_epoch_forces_publish 0 1 1 2 (by norm_num) (by norm_num)).2.2.1⟩

/-- Claim C8: every profile in the registry is well-formed: every axis code maps
to a channel index below 8 with a value-map entry whose bounds differ, and
every button code maps to a channel index below 11 — so the division in the
normalizer and all state-buffer accesses are in bounds for events resolvable
through any registered profile. -/
theorem registry_profiles_wellformed :
    ∀ x ∈ JOYSTICK_CODE_VALUE_MAP, ∀ p ∈ x.2.1,
      (isAxisCode p.1 = true →
        p.2 < 8 ∧ ∃ mn mx, x.2.2.lookup p.2 = some (mn, mx) ∧ mn ≠ mx) ∧
      (isButtonCode p.1 = true → p.2 < 11) := by
  intro x hx p hp
  simp only [JOYSTICK_CODE_VALUE_MAP, List.mem_cons, List.not_mem_nil,
    or_false] at hx
  rcases hx with rfl | rfl | rfl | rfl | rfl <;>
    simp only [XINPUT_CODE_MAP, PS4_CODE_MAP, F710_CODE_MAP, XONE_CODE_MAP,
      XONE_S_CODE_MAP, List.mem_cons, List.not_mem_nil, or_false] at hp <;>
    rcases hp with rfl | rfl | rfl | rfl | rfl | rfl | rfl | rfl | rfl | rfl |
      rfl | rfl | rfl | rfl | rfl | rfl | rfl | rfl | rfl <;>
    constructor <;> intro h <;>
    first
      | exact absurd h (by decide)
      | exact ⟨by decide, _, _, rfl, by decide⟩
      | decide

/-- Witness for C8: on the X-Box 360 profile, `ABS_X` maps to axis channel
`0`, which is below 8 and has the value range `(-32768, 32767)`. -/
theorem registry_profiles_wellformed_witness :
    ("Microsoft X-Box 360 pad",
      (XINPUT_CODE_MAP, XINPUT_VALUE_MAP)) ∈ JOYSTICK_CODE_VALUE_MAP ∧
    ("ABS_X", 0) ∈ XINPUT_CODE_MAP ∧ isAxisCode "ABS_X" = true ∧
    ((0 : Nat) < 8 ∧
      ∃ mn mx, XINPUT_VALUE_MAP.lookup 0 = some (mn, mx) ∧ mn ≠ mx) :=
  ⟨by decide, by decide, by decide,
   (registry_profiles_wellformed
      ("Microsoft X-Box 360 pad", (XINPUT_CODE_MAP, XINPUT_VALUE_MAP))
      (by decide) ("ABS_X", 0) (by decide)).1 (by decide)⟩
